import Mathlib

/-!
# Verification of the LCV synthetic retail data generator

Shallow embedding of `src/postgres/seed_synthetic_data.py`.  Randomness
(`np.random.*`) is abstracted as explicit draw parameters; monetary values
are modelled as rationals; the database is modelled as the lists of records
the generator would insert.
-/

namespace SeedData

/-! ## Domain constants (lines 67-72 of the source) -/

/-- `REGIONS = ["North", "South", "East", "West", "Central"]`. -/
def REGIONS : List String := ["North", "South", "East", "West", "Central"]

/-- `PRODUCT_CATEGORIES`: category name paired with its subcategory list. -/
def PRODUCT_CATEGORIES : List (String × List String) :=
  [("Textile", ["T-Shirt", "Dress", "Pants", "Jacket", "Sweater"]),
   ("Accessories", ["Hat", "Scarf", "Bag", "Shoes", "Gloves"]),
   ("Seasonal", ["Swimwear", "Thermal", "Snow Boots", "Sunglasses", "Winter Coat"])]

/-! ## Date dimension (`generate_dim_date`, lines 129-168)

A date record's calendar-dependent attributes are functions of the day's
weekday index (Python `date.weekday()`: Monday = 0 .. Sunday = 6).  The
weekday of `base_date + i` is `(baseWeekday + i) % 7` where `baseWeekday`
is the weekday of `base_date = now - DATE_RANGE_DAYS`. -/

/-- Python `strftime("%A")` on a weekday index (Monday = 0). -/
def dayName : Nat → String
  | 0 => "Monday"
  | 1 => "Tuesday"
  | 2 => "Wednesday"
  | 3 => "Thursday"
  | 4 => "Friday"
  | 5 => "Saturday"
  | _ => "Sunday"

/-- The fields of a `dim_date` row that the claims refer to. -/
structure DateRecord where
  day_of_week : Nat
  day_name : String
  is_weekend : Nat
  is_holiday : Bool
  deriving Repr, DecidableEq

/-- One `dim_date` row, from the tuple built at lines 140-157:
`day_of_week = weekday + 1`, `day_name = strftime("%A")`,
`is_weekend = 1 if weekday >= 4 else 0`, `is_holiday = False`. -/
def mkDateRecord (weekday : Nat) : DateRecord :=
  { day_of_week := weekday + 1
    day_name := dayName weekday
    is_weekend := if 4 ≤ weekday then 1 else 0
    is_holiday := false }

/-- `generate_dim_date`: the loop `for i in range(DATE_RANGE_DAYS + 1)`
produces one record per day; day `i` has weekday `(baseWeekday + i) % 7`. -/
def generate_dim_date (baseWeekday dateRangeDays : Nat) : List DateRecord :=
  (List.range (dateRangeDays + 1)).map (fun i => mkDateRecord ((baseWeekday + i) % 7))

/-! ## Store dimension (`generate_dim_store`, lines 170-213) -/

/-- The fields of a `dim_store` row that the claims refer to. -/
structure StoreRecord where
  store_id : Nat
  region : String
  deriving Repr, DecidableEq

/-- One `dim_store` row (lines 176-202):
`region = REGIONS[(store_id - 1) % len(REGIONS)]`. -/
def mkStoreRecord (store_id : Nat) : StoreRecord :=
  { store_id := store_id
    region := REGIONS.getD ((store_id - 1) % REGIONS.length) "" }

/-- `generate_dim_store`: `for store_id in range(1, NUM_STORES + 1)`. -/
def generate_dim_store (numStores : Nat) : List StoreRecord :=
  (List.range' 1 numStores).map mkStoreRecord

/-! ## Product dimension (`generate_dim_product`, lines 215-268)

`unit_cost = np.random.uniform(5, 50)` and the markup
`np.random.uniform(1.5, 3.5)` are abstracted as draw functions indexed by
the 0-based product counter; the sampling ranges become hypotheses. -/

/-- The fields of a `dim_product` row that the claims refer to. -/
structure ProductRecord where
  product_id : Nat
  category : String
  subcategory : String
  unit_cost : ℚ
  list_price : ℚ
  deriving Repr, DecidableEq

/-- The inner loop `for i in range(products_per_category)` (lines 224-257)
for one category: `subcategory = subcategories[i % len(subcategories)]`,
`unit_cost` drawn, `list_price = unit_cost * markup`.  `startId` is the
value of the running `product_id` counter when the category begins. -/
def productsInCategory (perCat startId : Nat) (cat : String × List String)
    (costDraw markupDraw : Nat → ℚ) : List ProductRecord :=
  (List.range perCat).map (fun i =>
    { product_id := startId + i
      category := cat.1
      subcategory := cat.2.getD (i % cat.2.length) ""
      unit_cost := costDraw (startId + i - 1)
      list_price := costDraw (startId + i - 1) * markupDraw (startId + i - 1) })

/-- `generate_dim_product`: the outer loop over `PRODUCT_CATEGORIES.items()`
with `products_per_category = NUM_PRODUCTS // len(PRODUCT_CATEGORIES)` and a
sequential `product_id` counter starting at 1. -/
def generate_dim_product (numProducts : Nat) (costDraw markupDraw : Nat → ℚ) :
    List ProductRecord :=
  let perCat := numProducts / PRODUCT_CATEGORIES.length
  ((List.range PRODUCT_CATEGORIES.length).map (fun c =>
    productsInCategory perCat (c * perCat + 1) (PRODUCT_CATEGORIES.getD c ("", []))
      costDraw markupDraw)).flatten

/-! ## Customer dimension (`generate_dim_customer`, lines 270-313) -/

/-- The fields of a `dim_customer` row that the claims refer to.
`join_date` is modelled as the drawn days-ago offset. -/
structure CustomerRecord where
  customer_id : Nat
  loyalty_member : Bool
  join_date : Option Nat
  lifetime_purchases : Nat
  lifetime_spend : ℚ
  deriving Repr, DecidableEq

/-- One `dim_customer` row (lines 277-302): loyalty flag drawn; join date set
iff member; lifetime counters initialized to zero. -/
def mkCustomerRecord (loyaltyDraw : Nat → Bool) (joinDraw : Nat → Nat)
    (customer_id : Nat) : CustomerRecord :=
  let lm := loyaltyDraw customer_id
  { customer_id := customer_id
    loyalty_member := lm
    join_date := if lm then some (joinDraw customer_id) else none
    lifetime_purchases := 0
    lifetime_spend := 0 }

/-- `generate_dim_customer`: `for customer_id in range(1, NUM_CUSTOMERS + 1)`. -/
def generate_dim_customer (numCustomers : Nat) (loyaltyDraw : Nat → Bool)
    (joinDraw : Nat → Nat) : List CustomerRecord :=
  (List.range' 1 numCustomers).map (mkCustomerRecord loyaltyDraw joinDraw)

/-! ## Fact sales (`generate_fact_sales`, lines 315-406)

Each record consumes a tuple of random draws (lines 329-369); the draws for
record number `k` (0-based) are abstracted as `draws k`. -/

/-- `payment_methods` (line 323). -/
def payment_methods : List String := ["Cash", "Credit Card", "Debit Card", "Mobile Pay"]

/-- The discount-percentage choice set `[0, 5, 10, 15, 20]` (line 350). -/
def discountChoices : List ℚ := [0, 5, 10, 15, 20]

/-- The values the random generator produces for one fact-sales record. -/
structure SaleDraws where
  dayOffset : Nat
  store_id : Nat
  product_id : Nat
  customerRoll : ℚ
  customerDraw : Nat
  quantity : Nat
  unit_price : ℚ
  cost_markup : ℚ
  discount_pct : ℚ
  is_return : Bool
  payIdx : Nat
  deriving Repr, DecidableEq

/-- A `fact_sales` row; `sale_day` stands for the drawn day offset of
`sale_date`. -/
structure SaleRecord where
  sale_id : Nat
  store_id : Nat
  product_id : Nat
  customer_id : Option Nat
  sale_day : Nat
  quantity : Nat
  unit_price : ℚ
  total_amount : ℚ
  discount_pct : ℚ
  discount_amount : ℚ
  net_amount : ℚ
  cost_amount : ℚ
  margin_amount : ℚ
  payment_method : String
  is_return : Bool
  deriving Repr, DecidableEq

/-- One fact-sales record, from the loop body at lines 329-390:
`customer_id` set with probability 0.8 (`np.random.random() < 0.8`);
`unit_cost = unit_price / cost_markup`; `cost_amount = unit_cost * quantity`;
`total_amount = unit_price * quantity`;
`discount_amount = (total_amount * discount_pct) / 100 if discount_pct > 0 else 0`;
`net_amount = total_amount - discount_amount`;
`margin_amount = net_amount - cost_amount`; on a return, net and cost are
replaced by `-abs(...)` and margin recomputed from the negated values. -/
def mkSaleRecord (sale_id : Nat) (d : SaleDraws) : SaleRecord :=
  let customer_id := if d.customerRoll < 4 / 5 then some d.customerDraw else none
  let unit_cost := d.unit_price / d.cost_markup
  let cost_amount := unit_cost * (d.quantity : ℚ)
  let total_amount := d.unit_price * (d.quantity : ℚ)
  let discount_amount :=
    if 0 < d.discount_pct then total_amount * d.discount_pct / 100 else 0
  let net_amount := total_amount - discount_amount
  let margin_amount := net_amount - cost_amount
  let payment_method := payment_methods.getD (d.payIdx % payment_methods.length) ""
  if d.is_return then
    { sale_id := sale_id
      store_id := d.store_id
      product_id := d.product_id
      customer_id := customer_id
      sale_day := d.dayOffset
      quantity := d.quantity
      unit_price := d.unit_price
      total_amount := total_amount
      discount_pct := d.discount_pct
      discount_amount := discount_amount
      net_amount := -|net_amount|
      cost_amount := -|cost_amount|
      margin_amount := (-|net_amount|) - (-|cost_amount|)
      payment_method := payment_method
      is_return := true }
  else
    { sale_id := sale_id
      store_id := d.store_id
      product_id := d.product_id
      customer_id := customer_id
      sale_day := d.dayOffset
      quantity := d.quantity
      unit_price := d.unit_price
      total_amount := total_amount
      discount_pct := d.discount_pct
      discount_amount := discount_amount
      net_amount := net_amount
      cost_amount := cost_amount
      margin_amount := margin_amount
      payment_method := payment_method
      is_return := false }

/-- `batch_size = 10000` (line 326). -/
def batch_size : Nat := 10000

/-- One batch of the inner loop `for _ in range(batch_size)`: the `sale_id`
counter continues across batches, starting at 1. -/
def factBatch (draws : Nat → SaleDraws) (batchNum bs : Nat) : List SaleRecord :=
  (List.range bs).map (fun j =>
    mkSaleRecord (batchNum * bs + j + 1) (draws (batchNum * bs + j)))

/-- `generate_fact_sales`: the loop
`for batch_num in range(0, NUM_SALES // batch_size)`.  Each element of the
result is one flushed batch: fully materialized, inserted with a commit, and
then discarded (`sales_records = []`) before the next batch begins. -/
def generate_fact_sales (numSales bs : Nat) (draws : Nat → SaleDraws) :
    List (List SaleRecord) :=
  (List.range (numSales / bs)).map (fun b => factBatch draws b bs)

/-- Total number of fact records inserted over all flushed batches. -/
def totalFactRecords (numSales bs : Nat) (draws : Nat → SaleDraws) : Nat :=
  ((generate_fact_sales numSales bs draws).map List.length).sum

/-! ## Index builder (`create_indexes`, lines 408-428) -/

/-- The five index statements (lines 411-417). -/
def index_statements : List String :=
  ["CREATE INDEX idx_fact_sales_date_2 ON fact_sales(sale_date);",
   "CREATE INDEX idx_fact_sales_store_2 ON fact_sales(store_id);",
   "CREATE INDEX idx_fact_sales_product_2 ON fact_sales(product_id);",
   "CREATE INDEX idx_fact_sales_customer_2 ON fact_sales(customer_id);",
   "CREATE INDEX idx_fact_sales_store_product_date_2 ON fact_sales(store_id, product_id, sale_date);"]

/-- Python `pat in s` (substring containment) on character lists. -/
def containsSub (pat : List Char) : List Char → Bool
  | [] => pat.isEmpty
  | c :: rest => pat.isPrefixOf (c :: rest) || containsSub pat rest

/-- `"already exists" in str(e)` (line 424). -/
def hasAlreadyExists (msg : String) : Bool :=
  containsSub "already exists".toList msg.toList

/-- What executing one index statement did: whether it was attempted,
whether its transaction was committed, whether a warning line was logged
and whether the transaction was rolled back. -/
structure IndexOutcome where
  executed : Bool
  committed : Bool
  warned : Bool
  rolledBack : Bool
  deriving Repr, DecidableEq

/-- The `try/except psycopg2.Error` body for one statement (lines 419-426).
`err = none` models a successful `execute`; `some msg` models a raised
`psycopg2.Error` whose string is `msg`.  On error, a warning is logged only
when `"already exists" not in str(e)`, and the transaction is rolled back
in either case; nothing is re-raised. -/
def runIndexStatement (err : Option String) : IndexOutcome :=
  match err with
  | none => { executed := true, committed := true, warned := false, rolledBack := false }
  | some msg =>
      { executed := true
        committed := false
        warned := !hasAlreadyExists msg
        rolledBack := true }

/-- `create_indexes`: every statement in `index_statements` is attempted in
order; a failing statement never stops the loop, which continues to the
next index. -/
def create_indexes (dbErr : String → Option String) : List IndexOutcome :=
  index_statements.map (fun q => runIndexStatement (dbErr q))

/-! ## Pipeline (`generate_all`, lines 430-446) -/

/-- The six pipeline stages, in execution order (lines 434-440). -/
inductive Stage
  | date
  | store
  | product
  | customer
  | fact
  | indexes
  deriving Repr, DecidableEq

/-- The order in which `generate_all` runs the stages. -/
def pipelineStages : List Stage :=
  [Stage.date, Stage.store, Stage.product, Stage.customer, Stage.fact, Stage.indexes]

/-- Observable pipeline state: which stages started executing, and which
stages' writes reached a commit. -/
structure PipelineState where
  executed : List Stage
  committed : List Stage
  deriving Repr, DecidableEq

/-- Run the remaining stages; `failing` names the stage whose database
write raises.  A dimension or fact stage commits only after its write
succeeds; when the write raises, the stage commits nothing (the open
transaction is discarded when the `finally` block closes the connection,
i.e. it is rolled back), `generate_all` logs and re-raises, and no later
stage runs.  The index stage catches database errors per statement
(`create_indexes`), so a failure there does not propagate. -/
def runStages (failing : Option Stage) :
    List Stage → PipelineState → PipelineState × Option Stage
  | [], st => (st, none)
  | s :: rest, st =>
      let started : PipelineState := { st with executed := st.executed ++ [s] }
      if failing = some s ∧ s ≠ Stage.indexes then
        (started, some s)
      else
        runStages failing rest { started with committed := started.committed ++ [s] }

/-- `generate_all`: clear tables, then run all six stages in order; the
second component is the error that propagated out, if any. -/
def generate_all (failing : Option Stage) : PipelineState × Option Stage :=
  runStages failing pipelineStages { executed := [], committed := [] }

/-! ## Whole-run record counts -/

/-- The generation-scale configuration surface (lines 75-80). -/
structure Config where
  storeCount : Nat
  productCount : Nat
  customerCount : Nat
  saleCount : Nat
  historyDays : Nat
  randomSeed : Nat
  deriving Repr, DecidableEq

/-- One run's random environment: everything `np.random` feeds the
generators, together with the calendar-dependent base weekday. -/
structure DrawEnv where
  baseWeekday : Nat
  productCost : Nat → ℚ
  productMarkup : Nat → ℚ
  loyalty : Nat → Bool
  joinDays : Nat → Nat
  sale : Nat → SaleDraws

/-- Per-table record counts of one full run. -/
structure TableCounts where
  dates : Nat
  stores : Nat
  products : Nat
  customers : Nat
  facts : Nat
  deriving Repr, DecidableEq

/-- Counts produced by one full pipeline run against a freshly cleared
schema (tables are truncated first, so the table counts are exactly the
generated list lengths). -/
def runTableCounts (cfg : Config) (env : DrawEnv) : TableCounts :=
  { dates := (generate_dim_date env.baseWeekday cfg.historyDays).length
    stores := (generate_dim_store cfg.storeCount).length
    products := (generate_dim_product cfg.productCount env.productCost env.productMarkup).length
    customers := (generate_dim_customer cfg.customerCount env.loyalty env.joinDays).length
    facts := totalFactRecords cfg.saleCount batch_size env.sale }

/-- The concrete draw tuple of the C1 scenario:
`unit_price = 100, quantity = 2, discount_pct = 10`, not a return. -/
def scenario100 : SaleDraws :=
  { dayOffset := 0
    store_id := 1
    product_id := 1
    customerRoll := 0
    customerDraw := 1
    quantity := 2
    unit_price := 100
    cost_markup := 2
    discount_pct := 10
    is_return := false
    payIdx := 0 }

/-! ## Theorems -/

/-- **C10.** Every generated date record has `is_weekend = 1` exactly when the
day's weekday index is at least 4, i.e. exactly on Friday, Saturday and
Sunday (a three-day weekend); all other days carry flag 0. -/
theorem fact_weekend_flag_friday_included (base days : Nat) (r : DateRecord)
    (hr : r ∈ generate_dim_date base days) :
    (r.is_weekend = 1 ↔ r.day_name ∈ ["Friday", "Saturday", "Sunday"])
    ∧ (r.is_weekend = 1 ↔ 5 ≤ r.day_of_week)
    ∧ (r.is_weekend = 1 ∨ r.is_weekend = 0) := by
  simp only [generate_dim_date, List.mem_map, List.mem_range] at hr
  obtain ⟨i, -, rfl⟩ := hr
  have h7 : (base + i) % 7 < 7 := Nat.mod_lt _ (by norm_num)
  set w := (base + i) % 7 with hw
  clear_value w
  interval_cases w <;> simp [mkDateRecord, dayName]

/-- Witness for C10 at a concrete record: day 4 of a window starting on
Monday is a Friday and is flagged as weekend. -/
theorem fact_weekend_flag_friday_included_witness :
    ((mkDateRecord 4).is_weekend = 1 ↔ (mkDateRecord 4).day_name ∈ ["Friday", "Saturday", "Sunday"])
    ∧ ((mkDateRecord 4).is_weekend = 1 ↔ 5 ≤ (mkDateRecord 4).day_of_week)
    ∧ ((mkDateRecord 4).is_weekend = 1 ∨ (mkDateRecord 4).is_weekend = 0) :=
  fact_weekend_flag_friday_included 0 6 (mkDateRecord 4) (by decide)

/-- **C4.** Store IDs form the dense sequence `1..N` with no duplicates, each
record's region is `REGIONS[(store_id - 1) % 5]`, hence one of the 5
configured regions; for `N = 6` the regions are North, South, East, West,
Central and then wrap back to North. -/
theorem store_ids_dense_regions_round_robin (n : Nat) :
    ((generate_dim_store n).map (fun r => r.store_id) = List.range' 1 n)
    ∧ ((generate_dim_store n).map (fun r => r.store_id)).Nodup
    ∧ (∀ r ∈ generate_dim_store n,
        r.region = REGIONS.getD ((r.store_id - 1) % REGIONS.length) "" ∧ r.region ∈ REGIONS)
    ∧ ((generate_dim_store 6).map (fun r => r.region)
        = ["North", "South", "East", "West", "Central", "North"]) := by
  have hids : (generate_dim_store n).map (fun r => r.store_id) = List.range' 1 n := by
    rw [generate_dim_store, List.map_map]
    exact List.map_id _
  refine ⟨hids, ?_, ?_, by decide⟩
  · rw [hids]; exact List.nodup_range' 1 n
  · intro r hr
    simp only [generate_dim_store, List.mem_map] at hr
    obtain ⟨i, -, rfl⟩ := hr
    constructor
    · rfl
    · have h5 : (i - 1) % REGIONS.length < 5 := Nat.mod_lt _ (by decide)
      simp only [mkStoreRecord]
      set k := (i - 1) % REGIONS.length with hk
      clear_value k
      interval_cases k <;> decide

/-- Witness for C4 at store 1 of a 6-store run. -/
theorem store_ids_dense_regions_round_robin_witness :
    (mkStoreRecord 1).region
        = REGIONS.getD (((mkStoreRecord 1).store_id - 1) % REGIONS.length) ""
    ∧ (mkStoreRecord 1).region ∈ REGIONS :=
  (store_ids_dense_regions_round_robin 6).2.2.1 (mkStoreRecord 1) (by decide)

/-- Helper: the per-category inner loop emits exactly `perCat` records. -/
lemma productsInCategory_length (k s : Nat) (c : String × List String)
    (cd md : Nat → ℚ) : (productsInCategory k s c cd md).length = k := by
  simp [productsInCategory]

/-- Helper: counting records of a given category inside one inner loop. -/
lemma countP_category_productsInCategory (k s : Nat) (c : String × List String)
    (cd md : Nat → ℚ) (q : String) :
    (productsInCategory k s c cd md).countP (fun r => r.category == q)
      = if c.1 == q then k else 0 := by
  rw [productsInCategory, List.countP_map]
  show List.countP (fun _ => c.1 == q) (List.range k) = if c.1 == q then k else 0
  by_cases h : c.1 == q <;> simp [h]

/-- Helper: element lookup inside one inner loop. -/
lemma productsInCategory_getElem (k s : Nat) (c : String × List String)
    (cd md : Nat → ℚ) (i : Nat) (hi : i < k) :
    (productsInCategory k s c cd md)[i]?
      = some { product_id := s + i
               category := c.1
               subcategory := c.2.getD (i % c.2.length) ""
               unit_cost := cd (s + i - 1)
               list_price := cd (s + i - 1) * md (s + i - 1) } := by
  simp [productsInCategory, List.getElem?_map, List.getElem?_range, hi]

/-- Helper: the product stage is the concatenation of the three per-category
loops, with the running `product_id` counter threaded through. -/
lemma generate_dim_product_split (n : Nat) (cd md : Nat → ℚ) :
    generate_dim_product n cd md
      = productsInCategory (n / 3) 1
          ("Textile", ["T-Shirt", "Dress", "Pants", "Jacket", "Sweater"]) cd md
        ++ (productsInCategory (n / 3) (n / 3 + 1)
          ("Accessories", ["Hat", "Scarf", "Bag", "Shoes", "Gloves"]) cd md
        ++ productsInCategory (n / 3) (2 * (n / 3) + 1)
          ("Seasonal", ["Swimwear", "Thermal", "Snow Boots", "Sunglasses", "Winter Coat"]) cd md) := by
  simp only [generate_dim_product, show PRODUCT_CATEGORIES.length = 3 from rfl,
    show List.range 3 = [0, 1, 2] from rfl, List.map_cons, List.map_nil,
    List.flatten_cons, List.flatten_nil, List.append_nil,
    show PRODUCT_CATEGORIES.getD 0 ("", [])
        = ("Textile", ["T-Shirt", "Dress", "Pants", "Jacket", "Sweater"]) from rfl,
    show PRODUCT_CATEGORIES.getD 1 ("", [])
        = ("Accessories", ["Hat", "Scarf", "Bag", "Shoes", "Gloves"]) from rfl,
    show PRODUCT_CATEGORIES.getD 2 ("", [])
        = ("Seasonal", ["Swimwear", "Thermal", "Snow Boots", "Sunglasses", "Winter Coat"]) from rfl,
    Nat.zero_mul, Nat.one_mul, Nat.zero_add]

/-- Helper: the product stage emits `3 * (N / 3)` records in total. -/
lemma generate_dim_product_length (n : Nat) (cd md : Nat → ℚ) :
    (generate_dim_product n cd md).length = 3 * (n / 3) := by
  rw [generate_dim_product_split]
  simp [productsInCategory_length]
  omega

/-- **C5.** The product generator emits exactly `N / 3` products in each of
the 3 categories (so `3 * (N / 3)` in total: remainder products are
dropped), with the subcategory of the `i`-th product of a category assigned
round-robin as `subcategories[i % len(subcategories)]`; for
`product_count = 15` each category gets exactly 5 products. -/
theorem product_category_counts_round_robin (n : Nat) (cd md : Nat → ℚ) :
    (generate_dim_product n cd md).length = 3 * (n / 3)
    ∧ (∀ cat ∈ PRODUCT_CATEGORIES,
        (generate_dim_product n cd md).countP (fun r => r.category == cat.1) = n / 3)
    ∧ (∀ c i, c < PRODUCT_CATEGORIES.length → i < n / PRODUCT_CATEGORIES.length →
        ((generate_dim_product n cd md)[c * (n / PRODUCT_CATEGORIES.length) + i]?).map
            (fun r => r.subcategory)
          = some ((PRODUCT_CATEGORIES.getD c ("", [])).2.getD
              (i % (PRODUCT_CATEGORIES.getD c ("", [])).2.length) ""))
    ∧ (∀ cat ∈ PRODUCT_CATEGORIES,
        (generate_dim_product 15 cd md).countP (fun r => r.category == cat.1) = 5) := by
  have hsplit := generate_dim_product_split n cd md
  have hsplit15 := generate_dim_product_split 15 cd md
  refine ⟨generate_dim_product_length n cd md, ?_, ?_, ?_⟩
  · intro cat hcat
    fin_cases hcat <;>
      simp [hsplit, List.countP_append, countP_category_productsInCategory]
  · intro c i hc hi
    simp only [show PRODUCT_CATEGORIES.length = 3 from rfl] at hc hi ⊢
    interval_cases c
    · rw [hsplit, show 0 * (n / 3) + i = i by omega,
        List.getElem?_append_left (by rw [productsInCategory_length]; omega),
        productsInCategory_getElem _ _ _ _ _ _ hi]
      rfl
    · rw [hsplit, List.getElem?_append_right (by rw [productsInCategory_length]; omega),
        List.getElem?_append_left (by rw [productsInCategory_length, productsInCategory_length]; omega)]
      rw [show 1 * (n / 3) + i - (productsInCategory (n / 3) 1
        ("Textile", ["T-Shirt", "Dress", "Pants", "Jacket", "Sweater"]) cd md).length = i by
        rw [productsInCategory_length]; omega]
      rw [productsInCategory_getElem _ _ _ _ _ _ hi]
      rfl
    · rw [hsplit, List.getElem?_append_right (by rw [productsInCategory_length]; omega),
        List.getElem?_append_right (by rw [productsInCategory_length, productsInCategory_length]; omega)]
      rw [show 2 * (n / 3) + i - (productsInCategory (n / 3) 1
          ("Textile", ["T-Shirt", "Dress", "Pants", "Jacket", "Sweater"]) cd md).length
        - (productsInCategory (n / 3) (n / 3 + 1)
          ("Accessories", ["Hat", "Scarf", "Bag", "Shoes", "Gloves"]) cd md).length = i by
        rw [productsInCategory_length, productsInCategory_length]; omega]
      rw [productsInCategory_getElem _ _ _ _ _ _ hi]
      rfl
  · intro cat hcat
    fin_cases hcat <;>
      simp [hsplit15, List.countP_append, countP_category_productsInCategory]

/-- Witness for C5: with `product_count = 15`, the Textile category holds
exactly 5 products. -/
theorem product_category_counts_round_robin_witness :
    (generate_dim_product 15 (fun _ => 10) (fun _ => 2)).countP
        (fun r => r.category == ("Textile", ["T-Shirt", "Dress", "Pants", "Jacket", "Sweater"]).1)
      = 5 :=
  (product_category_counts_round_robin 15 (fun _ => 10) (fun _ => 2)).2.2.2
    ("Textile", ["T-Shirt", "Dress", "Pants", "Jacket", "Sweater"]) (by decide)

/-- Helper: a cost of at least 5 marked up by a factor of at least 3/2
strictly increases. -/
lemma cost_lt_price_of_bounds (c m : ℚ) (hc : 5 ≤ c) (hm : 3 / 2 ≤ m) :
    c < c * m := by nlinarith

/-- **C6.** Every generated product record has `list_price` strictly greater
than `unit_cost`, given that the cost draw lies in the sampling range
`[5, 50)` and the markup draw in `[1.5, 3.5)`. -/
theorem product_list_price_exceeds_cost (n : Nat) (cd md : Nat → ℚ)
    (hc : ∀ k, 5 ≤ cd k ∧ cd k < 50) (hm : ∀ k, 3 / 2 ≤ md k ∧ md k < 7 / 2) :
    ∀ r ∈ generate_dim_product n cd md, r.unit_cost < r.list_price := by
  intro r hr
  simp only [generate_dim_product, List.mem_flatten, List.mem_map] at hr
  obtain ⟨L, ⟨c, -, rfl⟩, hrL⟩ := hr
  simp only [productsInCategory, List.mem_map] at hrL
  obtain ⟨i, -, rfl⟩ := hrL
  exact cost_lt_price_of_bounds _ _ (hc _).1 (hm _).1

/-- **C1.** Every fact record whose discount percentage comes from the
configured choice set and which is not a return satisfies the accounting
identities `total = price * quantity`, `discount = total * pct / 100`,
`net = total - discount`, `margin = net - cost`; in the concrete scenario
`unit_price = 100, quantity = 2, discount_pct = 10` the record has
`total_amount = 200`, `discount_amount = 20`, `net_amount = 180`. -/
theorem fact_financial_identities (sid : Nat) (d : SaleDraws)
    (hpct : d.discount_pct ∈ discountChoices) (hret : d.is_return = false) :
    ((mkSaleRecord sid d).total_amount
        = (mkSaleRecord sid d).unit_price * ((mkSaleRecord sid d).quantity : ℚ)
      ∧ (mkSaleRecord sid d).discount_amount
        = (mkSaleRecord sid d).total_amount * (mkSaleRecord sid d).discount_pct / 100
      ∧ (mkSaleRecord sid d).net_amount
        = (mkSaleRecord sid d).total_amount - (mkSaleRecord sid d).discount_amount
      ∧ (mkSaleRecord sid d).margin_amount
        = (mkSaleRecord sid d).net_amount - (mkSaleRecord sid d).cost_amount)
    ∧ ((mkSaleRecord 1 scenario100).total_amount = 200
      ∧ (mkSaleRecord 1 scenario100).discount_amount = 20
      ∧ (mkSaleRecord 1 scenario100).net_amount = 180) := by
  constructor
  · simp only [discountChoices, List.mem_cons, List.not_mem_nil, or_false] at hpct
    rcases hpct with h | h | h | h | h <;> norm_num [mkSaleRecord, hret, h]
  · norm_num [mkSaleRecord, scenario100]

/-- Witness for C1 at the scenario draw tuple itself. -/
theorem fact_financial_identities_witness :
    (mkSaleRecord 1 scenario100).total_amount
        = (mkSaleRecord 1 scenario100).unit_price * ((mkSaleRecord 1 scenario100).quantity : ℚ)
      ∧ (mkSaleRecord 1 scenario100).discount_amount
        = (mkSaleRecord 1 scenario100).total_amount * (mkSaleRecord 1 scenario100).discount_pct / 100
      ∧ (mkSaleRecord 1 scenario100).net_amount
        = (mkSaleRecord 1 scenario100).total_amount - (mkSaleRecord 1 scenario100).discount_amount
      ∧ (mkSaleRecord 1 scenario100).margin_amount
        = (mkSaleRecord 1 scenario100).net_amount - (mkSaleRecord 1 scenario100).cost_amount :=
  (fact_financial_identities 1 scenario100 (by decide) rfl).1

/-- The concrete draw tuple used to witness C3: same as the scenario but
marked as a return. -/
def scenarioReturn : SaleDraws :=
  { scenario100 with is_return := true }

/-- **C3.** Every fact record marked as a return has `net_amount ≤ 0`,
`cost_amount ≤ 0`, and its margin is recomputed from the negated values so
that `margin_amount = net_amount - cost_amount` still holds. -/
theorem fact_return_nonpositive_margin (sid : Nat) (d : SaleDraws)
    (hret : d.is_return = true) :
    (mkSaleRecord sid d).net_amount ≤ 0
    ∧ (mkSaleRecord sid d).cost_amount ≤ 0
    ∧ (mkSaleRecord sid d).margin_amount
      = (mkSaleRecord sid d).net_amount - (mkSaleRecord sid d).cost_amount := by
  simp [mkSaleRecord, hret, neg_nonpos, abs_nonneg]

/-- Witness for C3 at a concrete returned record. -/
theorem fact_return_nonpositive_margin_witness :
    (mkSaleRecord 1 scenarioReturn).net_amount ≤ 0
    ∧ (mkSaleRecord 1 scenarioReturn).cost_amount ≤ 0
    ∧ (mkSaleRecord 1 scenarioReturn).margin_amount
      = (mkSaleRecord 1 scenarioReturn).net_amount - (mkSaleRecord 1 scenarioReturn).cost_amount :=
  fact_return_nonpositive_margin 1 scenarioReturn rfl

/-- Helper: the total record count over all flushed batches is
`(numSales / bs) * bs`. -/
lemma totalFactRecords_eq (n bs : Nat) (draws : Nat → SaleDraws) :
    totalFactRecords n bs draws = (n / bs) * bs := by
  rw [totalFactRecords, generate_fact_sales, List.map_map]
  have h1 : (List.length ∘ fun b => factBatch draws b bs) = fun _ => bs := by
    funext b; simp [factBatch]
  rw [h1, List.map_const', List.length_range, List.sum_replicate, smul_eq_mul]

/-- Counterexample to C2 as stated: with `NUM_SALES = 15000` and the
hard-coded `batch_size = 10000`, the generator inserts 10000 records, not
15000 — the remainder that does not fill a whole batch is never produced. -/
theorem fact_count_drops_remainder :
    totalFactRecords 15000 batch_size (fun _ => scenario100) = 10000
    ∧ (10000 : Nat) ≠ 15000 := by
  rw [totalFactRecords_eq]
  norm_num [batch_size]

/-- **C2 (amended).** The fact generator emits `NUM_SALES / batch_size`
batches of exactly `batch_size` records each — `(NUM_SALES / batch_size) *
batch_size` records in total, which equals `NUM_SALES` exactly when
`batch_size` divides `NUM_SALES`; each batch is one element of the result,
fully materialized, flushed, and discarded before the next begins. -/
theorem fact_batches_fixed_size (n : Nat) (draws : Nat → SaleDraws) :
    (generate_fact_sales n batch_size draws).length = n / batch_size
    ∧ (∀ b ∈ generate_fact_sales n batch_size draws, b.length = batch_size)
    ∧ totalFactRecords n batch_size draws = (n / batch_size) * batch_size
    ∧ (batch_size ∣ n → totalFactRecords n batch_size draws = n) := by
  refine ⟨by simp [generate_fact_sales], ?_, totalFactRecords_eq n batch_size draws, ?_⟩
  · intro b hb
    simp only [generate_fact_sales, List.mem_map] at hb
    obtain ⟨k, -, rfl⟩ := hb
    simp [factBatch]
  · intro hdvd
    rw [totalFactRecords_eq, Nat.div_mul_cancel hdvd]

/-- Witness for the amended C2: 20000 requested sales with the hard-coded
batch size 10000 yield exactly 20000 records. -/
theorem fact_batches_fixed_size_witness :
    totalFactRecords 20000 batch_size (fun _ => scenario100) = 20000 :=
  (fact_batches_fixed_size 20000 (fun _ => scenario100)).2.2.2 (by norm_num [batch_size])

/-- Witness for C6 at the first product of a 3-product run with constant
draws cost 10, markup 2. -/
theorem product_list_price_exceeds_cost_witness :
    (⟨1, "Textile", "T-Shirt", 10, 20⟩ : ProductRecord).unit_cost
      < (⟨1, "Textile", "T-Shirt", 10, 20⟩ : ProductRecord).list_price :=
  product_list_price_exceeds_cost 3 (fun _ => 10) (fun _ => 2)
    (fun _ => by norm_num) (fun _ => by norm_num)
    ⟨1, "Textile", "T-Shirt", 10, 20⟩ (by
      refine List.getElem?_mem (n := 0) ?_
      rw [generate_dim_product_split,
        List.getElem?_append_left (by rw [productsInCategory_length]; norm_num),
        productsInCategory_getElem _ _ _ _ _ 0 (by norm_num)]
      norm_num)

/-- **C7.** If the write of a dimension stage fails, the error propagates
out of `generate_all`, no later stage executes (exactly the stages up to
and including the failing one have started), and the failing stage's writes
never reach a commit (exactly the stages strictly before it are
committed). -/
theorem dimension_stage_failure_aborts (s : Stage)
    (hdim : s ∈ [Stage.date, Stage.store, Stage.product, Stage.customer]) :
    (generate_all (some s)).2 = some s
    ∧ (generate_all (some s)).1.executed
        = pipelineStages.takeWhile (fun t => t ≠ s) ++ [s]
    ∧ (generate_all (some s)).1.committed = pipelineStages.takeWhile (fun t => t ≠ s)
    ∧ s ∉ (generate_all (some s)).1.committed := by
  fin_cases hdim <;> exact ⟨rfl, by decide, by decide, by decide⟩

/-- Witness for C7: a store-stage failure aborts after date. -/
theorem dimension_stage_failure_aborts_witness :
    (generate_all (some Stage.store)).2 = some Stage.store
    ∧ (generate_all (some Stage.store)).1.executed
        = pipelineStages.takeWhile (fun t => t ≠ Stage.store) ++ [Stage.store]
    ∧ (generate_all (some Stage.store)).1.committed
        = pipelineStages.takeWhile (fun t => t ≠ Stage.store)
    ∧ Stage.store ∉ (generate_all (some Stage.store)).1.committed :=
  dimension_stage_failure_aborts Stage.store (by decide)

/-- Counterexample to C8 as stated: an "index already exists" failure is
not a logged condition — no warning line is emitted for it — and its
transaction is rolled back just like any other failure (the claim reserves
the rollback for the other failures). -/
theorem index_already_exists_unlogged_rollback :
    (runIndexStatement (some "ERROR: relation idx_fact_sales_date_2 already exists")).warned
      = false
    ∧ (runIndexStatement (some "ERROR: relation idx_fact_sales_date_2 already exists")).rolledBack
      = true
    ∧ (create_indexes (fun q =>
        if q = "CREATE INDEX idx_fact_sales_date_2 ON fact_sales(sale_date);"
        then some "ERROR: relation idx_fact_sales_date_2 already exists"
        else none)).length = index_statements.length := by
  refine ⟨by decide, rfl, rfl⟩

/-- **C8 (amended).** No index-creation failure aborts the builder: all five
statements are attempted in order.  A successful statement is committed; a
failing one is never committed and its transaction is rolled back whatever
the error text, with a warning logged exactly when the message does not
contain "already exists" — so an "already exists" failure is skipped
silently (rolled back, not logged) and any other failure is logged as a
warning, and in both cases the builder continues to the next index. -/
theorem index_failures_never_abort (dbErr : String → Option String) :
    (create_indexes dbErr).length = index_statements.length
    ∧ (∀ o ∈ create_indexes dbErr, o.executed = true)
    ∧ (∀ q ∈ index_statements, dbErr q = none →
        runIndexStatement (dbErr q)
          = { executed := true, committed := true, warned := false, rolledBack := false })
    ∧ (∀ q ∈ index_statements, ∀ msg, dbErr q = some msg →
        (runIndexStatement (dbErr q)).rolledBack = true
        ∧ (runIndexStatement (dbErr q)).committed = false
        ∧ (runIndexStatement (dbErr q)).warned = !hasAlreadyExists msg) := by
  refine ⟨by simp [create_indexes], ?_, ?_, ?_⟩
  · intro o ho
    simp only [create_indexes, List.mem_map] at ho
    obtain ⟨q, -, rfl⟩ := ho
    cases dbErr q <;> rfl
  · intro q hq h
    rw [h]; rfl
  · intro q hq msg h
    rw [h]; exact ⟨rfl, rfl, rfl⟩

/-- Witness for the amended C8: a non-"already exists" failure on the first
statement is rolled back, not committed, and logged as a warning. -/
theorem index_failures_never_abort_witness :
    (runIndexStatement ((fun _ => some "ERROR: deadlock detected")
        "CREATE INDEX idx_fact_sales_date_2 ON fact_sales(sale_date);")).rolledBack = true
    ∧ (runIndexStatement ((fun _ => some "ERROR: deadlock detected")
        "CREATE INDEX idx_fact_sales_date_2 ON fact_sales(sale_date);")).committed = false
    ∧ (runIndexStatement ((fun _ => some "ERROR: deadlock detected")
        "CREATE INDEX idx_fact_sales_date_2 ON fact_sales(sale_date);")).warned
      = !hasAlreadyExists "ERROR: deadlock detected" :=
  (index_failures_never_abort (fun _ => some "ERROR: deadlock detected")).2.2.2
    "CREATE INDEX idx_fact_sales_date_2 ON fact_sales(sale_date);" (by decide)
    "ERROR: deadlock detected" rfl

/-- **C9.** For a fixed configuration, any two full runs against a freshly
cleared schema produce identical per-table record counts — whatever random
values the (seeded) generator supplies — and those counts are:
`history_days + 1` dates, `store_count` stores, `3 * (product_count / 3)`
products, `customer_count` customers, and
`(sale_count / batch_size) * batch_size` facts. -/
theorem pipeline_counts_reproducible (cfg : Config) (env1 env2 : DrawEnv) :
    runTableCounts cfg env1 = runTableCounts cfg env2
    ∧ runTableCounts cfg env1
      = { dates := cfg.historyDays + 1
          stores := cfg.storeCount
          products := 3 * (cfg.productCount / 3)
          customers := cfg.customerCount
          facts := (cfg.saleCount / batch_size) * batch_size } := by
  have h : ∀ env : DrawEnv, runTableCounts cfg env
      = { dates := cfg.historyDays + 1
          stores := cfg.storeCount
          products := 3 * (cfg.productCount / 3)
          customers := cfg.customerCount
          facts := (cfg.saleCount / batch_size) * batch_size } := by
    intro env
    simp [runTableCounts, generate_dim_date, generate_dim_store, generate_dim_customer,
      generate_dim_product_length, totalFactRecords_eq]
  exact ⟨(h env1).trans (h env2).symm, h env1⟩

end SeedData
